import Mathlib

/-!
Shallow embedding of `backend/blocks/data.py`: five S3-compatible storage
blocks (store / retrieve / delete object, create / delete bucket), each with a
MINIO adapter static method and (for four of them) a `run` generator method.

Python values and exceptions are modelled explicitly; the Minio client
(constructed in the source as `Minio(endpoint, access_key=..., secret_key=...)`)
together with the network is abstracted as a record of stateful operations, so
theorems can quantify over arbitrary backend behaviour, and a concrete
in-memory S3 semantics instantiates it for round-trip reasoning.
-/

/-- Python runtime values as used by this module's outputs: `None`, booleans,
and strings (object payloads are modelled as strings). -/
inductive PyVal where
  | vNone
  | vBool (b : Bool)
  | vStr (s : String)
deriving DecidableEq, Repr

/-- Python truthiness (`if obj:`) restricted to the values above: `None` is
falsy, a `bool` is itself, a string is truthy iff non-empty. -/
def truthy : PyVal → Bool
  | PyVal.vNone => false
  | PyVal.vBool b => b
  | PyVal.vStr s => s != ""

/-- Python exceptions that can escape the module's functions. `nameError` is a
`NameError` for an undefined global, `typeError` a `TypeError` from a bad call,
`backendExn` any exception raised by the backend client stack that is NOT a
`minio` `S3Error` (for example a network-level error, or an `OSError` when the
staged upload file is missing). `S3Error` itself never appears here because
every adapter catches it. -/
inductive PyExn where
  | nameError (missing : String)
  | typeError (msg : String)
  | backendExn (exnName : String)
deriving DecidableEq, Repr

/-- Outcome of one physical call on the Minio client: a returned value, a
raised `S3Error` carrying its `str(e)` message, or some other raised
exception. -/
inductive MinioOutcome (α : Type) where
  | ok (val : α)
  | s3error (msg : String)
  | raised (exn : PyExn)
deriving DecidableEq, Repr

/-- Abstraction of the `Minio` client object plus the backend it talks to,
with backend state `σ` threaded through every physical operation. Field names
and argument orders follow the minio SDK calls made in the source:
`fput_object(bucket, key, path)` (the client reads the file at `path`, passed
here as its content, `none` when the file does not exist), `get_object(bucket,
key)`, `remove_object(bucket, key)`, `make_bucket(bucket)`,
`remove_bucket(bucket)`. -/
structure MinioClient (σ : Type) where
  fput_object : σ → String → String → Option String → MinioOutcome Unit × σ
  get_object : σ → String → String → MinioOutcome String × σ
  remove_object : σ → String → String → MinioOutcome Unit × σ
  make_bucket : σ → String → MinioOutcome Unit × σ
  remove_bucket : σ → String → MinioOutcome Unit × σ

/-- Process environment seen by the store adapter: `cwd` is `os.getcwd()` and
`fs` maps a path to the content of the file there, if any. -/
structure Env where
  cwd : String
  fs : String → Option String

/-- Embeds the sole member `StorageProvider.MINIO` of the `StorageProvider`
string enum (source lines 16-18; the `AWS` member is commented out). A block
input's `provider` field is modelled as its string value, matching the str-enum
equality test `provider == StorageProvider.MINIO` performed in each `run`. -/
def StorageProvider.minio : String := "minio"

/-- In-memory S3 server state: the set of existing buckets and an association
list from (bucket, key) to stored object bytes; a fresh entry is consed at the
front, so `List.lookup` sees the latest write. -/
structure S3State where
  buckets : List String
  objects : List ((String × String) × String)
deriving DecidableEq, Repr

/-- Concrete semantics of `fput_object(bucket, key, path)`: a missing source
file raises an `OSError`-family exception (not `S3Error`); a missing bucket is
an `S3Error`; otherwise the file's bytes are stored under (bucket, key). -/
def S3State.fputObject (st : S3State) (bucket key : String) (src : Option String) :
    MinioOutcome Unit × S3State :=
  match src with
  | none => (MinioOutcome.raised (PyExn.backendExn "FileNotFoundError"), st)
  | some data =>
    if st.buckets.contains bucket then
      (MinioOutcome.ok (), S3State.mk st.buckets (((bucket, key), data) :: st.objects))
    else
      (MinioOutcome.s3error "S3 operation failed; code: NoSuchBucket", st)

/-- Concrete semantics of `get_object(bucket, key)`: missing bucket or key is
an `S3Error`; otherwise the stored bytes are returned. -/
def S3State.getObject (st : S3State) (bucket key : String) :
    MinioOutcome String × S3State :=
  if st.buckets.contains bucket then
    match st.objects.lookup (bucket, key) with
    | some data => (MinioOutcome.ok data, st)
    | none => (MinioOutcome.s3error "S3 operation failed; code: NoSuchKey", st)
  else
    (MinioOutcome.s3error "S3 operation failed; code: NoSuchBucket", st)

/-- Concrete semantics of `remove_object(bucket, key)`: missing bucket is an
`S3Error`; removing an absent key succeeds (S3 delete is idempotent). -/
def S3State.removeObject (st : S3State) (bucket key : String) :
    MinioOutcome Unit × S3State :=
  if st.buckets.contains bucket then
    (MinioOutcome.ok (),
      S3State.mk st.buckets (st.objects.filter (fun e => !(e.1 == (bucket, key)))))
  else
    (MinioOutcome.s3error "S3 operation failed; code: NoSuchBucket", st)

/-- Concrete semantics of `make_bucket(bucket)`: creating an existing bucket is
an `S3Error`; otherwise the bucket is added. -/
def S3State.makeBucket (st : S3State) (bucket : String) :
    MinioOutcome Unit × S3State :=
  if st.buckets.contains bucket then
    (MinioOutcome.s3error "S3 operation failed; code: BucketAlreadyOwnedByYou", st)
  else
    (MinioOutcome.ok (), S3State.mk (bucket :: st.buckets) st.objects)

/-- Concrete semantics of `remove_bucket(bucket)`: missing bucket and non-empty
bucket are `S3Error`s; otherwise the bucket is removed. -/
def S3State.removeBucket (st : S3State) (bucket : String) :
    MinioOutcome Unit × S3State :=
  if st.buckets.contains bucket then
    if st.objects.any (fun e => e.1.1 == bucket) then
      (MinioOutcome.s3error "S3 operation failed; code: BucketNotEmpty", st)
    else
      (MinioOutcome.ok (), S3State.mk (st.buckets.filter (fun b => !(b == bucket))) st.objects)
  else
    (MinioOutcome.s3error "S3 operation failed; code: NoSuchBucket", st)

/-- The concrete in-memory S3 backend packaged as a Minio client. -/
def s3Client : MinioClient S3State :=
  MinioClient.mk S3State.fputObject S3State.getObject S3State.removeObject
    S3State.makeBucket S3State.removeBucket

/-- Input schema of `StoreObjectInS3Block` (source lines 27-64), fields in
declaration order. `access_key` and `secret_key` are optional in the schema but
always present at runtime (possibly empty); they are modelled as strings. -/
structure StoreInput where
  key : String
  obj : PyVal
  provider : String
  bucket : String
  endpoint : String
  access_key : String
  secret_key : String
deriving DecidableEq, Repr

/-- Input schema of `RetrieveObjectFromS3Block` (source lines 132-164). -/
structure RetrieveInput where
  key : String
  provider : String
  bucket : String
  endpoint : String
  access_key : String
  secret_key : String
deriving DecidableEq, Repr

/-- Input schema of `DeleteObjectFromS3Block` (source lines 229-261). -/
structure DeleteObjectInput where
  key : String
  provider : String
  bucket : String
  endpoint : String
  access_key : String
  secret_key : String
deriving DecidableEq, Repr

/-- Input schema of `CreateBucketBlock` (source lines 315-342). -/
structure CreateBucketInput where
  bucket : String
  provider : String
  endpoint : String
  access_key : String
  secret_key : String
deriving DecidableEq, Repr

/-- Input schema of `DeleteBucketBlock` (source lines 401-428). -/
structure DeleteBucketInput where
  bucket : String
  provider : String
  endpoint : String
  access_key : String
  secret_key : String
deriving DecidableEq, Repr

/-- Embeds `StoreObjectInS3Block._store_in_s3_MINIO` (source lines 84-107).
The `client` argument abstracts `Minio(endpoint, access_key, secret_key)` plus
the network, so `endpoint`, `access_key`, `secret_key` are carried but
consumed only by that construction. Faithful details: the `obj` parameter is
UNUSED, exactly as in the source; the uploaded bytes come from the file at
`os.getcwd() + "/temp"`, read by `client.fput_object`; the try block wraps only
the `fput_object` call and catches only `S3Error`, so any other raised
exception propagates as `Except.error`. -/
def StoreObjectInS3Block.storeInS3Minio {σ : Type} (client : MinioClient σ)
    (env : Env) (st : σ) (key : String) (obj : PyVal)
    (bucket endpoint access_key secret_key : String) :
    Except PyExn ((Bool × String) × σ) :=
  let source_file_path := env.cwd ++ "/temp"
  match client.fput_object st bucket key (env.fs source_file_path) with
  | (MinioOutcome.ok _, st') => Except.ok ((true, ""), st')
  | (MinioOutcome.s3error m, st') => Except.ok ((false, m), st')
  | (MinioOutcome.raised e, _) => Except.error e

/-- Embeds `StoreObjectInS3Block.run` (source lines 109-124): on provider
`"minio"` it calls the MINIO adapter and yields `("success", success)` then
`("error", error)`; on any other provider it yields `("success", False)` and
`("error", "Provider not implemented yet.")` without touching the adapter. -/
def StoreObjectInS3Block.run {σ : Type} (client : MinioClient σ) (env : Env)
    (st : σ) (input_data : StoreInput) :
    Except PyExn (List (String × PyVal) × σ) :=
  if input_data.provider == StorageProvider.minio then
    match StoreObjectInS3Block.storeInS3Minio client env st input_data.key
        input_data.obj input_data.bucket input_data.endpoint
        input_data.access_key input_data.secret_key with
    | Except.ok ((success, error), st') =>
      Except.ok ([("success", PyVal.vBool success), ("error", PyVal.vStr error)], st')
    | Except.error e => Except.error e
  else
    Except.ok ([("success", PyVal.vBool false),
      ("error", PyVal.vStr "Provider not implemented yet.")], st)

/-- Embeds `RetrieveObjectFromS3Block._retrieve_from_s3_MINIO` (source lines
185-202): `get_object(bucket, key)` inside a try; on success the object and
`(True, "")`, on `S3Error` the triple `(None, False, str(e))`; any non-S3Error
exception propagates. -/
def RetrieveObjectFromS3Block.retrieveFromS3Minio {σ : Type}
    (client : MinioClient σ) (st : σ)
    (key bucket endpoint access_key secret_key : String) :
    Except PyExn ((PyVal × Bool × String) × σ) :=
  match client.get_object st bucket key with
  | (MinioOutcome.ok data, st') => Except.ok ((PyVal.vStr data, true, ""), st')
  | (MinioOutcome.s3error m, st') => Except.ok ((PyVal.vNone, false, m), st')
  | (MinioOutcome.raised e, _) => Except.error e

/-- Embeds `RetrieveObjectFromS3Block.run` (source lines 204-221): on provider
`"minio"` it calls the MINIO adapter, yields `("obj", obj)` ONLY when `obj` is
truthy (`if obj:`), then always `success` and `error`; on any other provider it
yields `("obj", None)`, `("success", False)`,
`("error", "Provider not implemented yet.")`. -/
def RetrieveObjectFromS3Block.run {σ : Type} (client : MinioClient σ) (st : σ)
    (input_data : RetrieveInput) :
    Except PyExn (List (String × PyVal) × σ) :=
  if input_data.provider == StorageProvider.minio then
    match RetrieveObjectFromS3Block.retrieveFromS3Minio client st
        input_data.key input_data.bucket input_data.endpoint
        input_data.access_key input_data.secret_key with
    | Except.ok ((obj, success, error), st') =>
      Except.ok ((if truthy obj then [("obj", obj)] else []) ++
        [("success", PyVal.vBool success), ("error", PyVal.vStr error)], st')
    | Except.error e => Except.error e
  else
    Except.ok ([("obj", PyVal.vNone), ("success", PyVal.vBool false),
      ("error", PyVal.vStr "Provider not implemented yet.")], st)

/-- Embeds `DeleteObjectFromS3Block._delete_from_s3_MINIO` (source lines
281-297): `remove_object(bucket, key)` inside a try catching only `S3Error`. -/
def DeleteObjectFromS3Block.deleteFromS3Minio {σ : Type}
    (client : MinioClient σ) (st : σ)
    (key bucket endpoint access_key secret_key : String) :
    Except PyExn ((Bool × String) × σ) :=
  match client.remove_object st bucket key with
  | (MinioOutcome.ok _, st') => Except.ok ((true, ""), st')
  | (MinioOutcome.s3error m, st') => Except.ok ((false, m), st')
  | (MinioOutcome.raised e, _) => Except.error e

/-- The `TypeError` message raised when `DeleteObjectFromS3Block.run` calls its
five-parameter adapter with two arguments. -/
def deleteCallTypeErrorMsg : String :=
  "TypeError: missing 3 required positional arguments"

/-- Embeds `DeleteObjectFromS3Block.run` (source lines 299-307). On provider
`"minio"` the source executes `self._delete_from_s3_MINIO(input_data.key,
input_data)` (line 302), supplying 2 arguments to the 5-parameter static
method, so Python raises `TypeError` at the call site before any adapter code
runs; this is embedded as an immediate exception. On any other provider it
yields the not-implemented pair. -/
def DeleteObjectFromS3Block.run {σ : Type} (client : MinioClient σ) (st : σ)
    (input_data : DeleteObjectInput) :
    Except PyExn (List (String × PyVal) × σ) :=
  if input_data.provider == StorageProvider.minio then
    Except.error (PyExn.typeError deleteCallTypeErrorMsg)
  else
    Except.ok ([("success", PyVal.vBool false),
      ("error", PyVal.vStr "Provider not implemented yet.")], st)

/-- Embeds `CreateBucketBlock._create_bucket_MINIO` (source lines 362-378):
`make_bucket(bucket)` inside a try catching only `S3Error`. -/
def CreateBucketBlock.createBucketMinio {σ : Type} (client : MinioClient σ)
    (st : σ) (bucket endpoint access_key secret_key : String) :
    Except PyExn ((Bool × String) × σ) :=
  match client.make_bucket st bucket with
  | (MinioOutcome.ok _, st') => Except.ok ((true, ""), st')
  | (MinioOutcome.s3error m, st') => Except.ok ((false, m), st')
  | (MinioOutcome.raised e, _) => Except.error e

/-- Embeds `CreateBucketBlock.run` (source lines 380-393). -/
def CreateBucketBlock.run {σ : Type} (client : MinioClient σ) (st : σ)
    (input_data : CreateBucketInput) :
    Except PyExn (List (String × PyVal) × σ) :=
  if input_data.provider == StorageProvider.minio then
    match CreateBucketBlock.createBucketMinio client st input_data.bucket
        input_data.endpoint input_data.access_key input_data.secret_key with
    | Except.ok ((success, error), st') =>
      Except.ok ([("success", PyVal.vBool success), ("error", PyVal.vStr error)], st')
    | Except.error e => Except.error e
  else
    Except.ok ([("success", PyVal.vBool false),
      ("error", PyVal.vStr "Provider not implemented yet.")], st)

/-- Embeds `DeleteBucketBlock._delete_bucket_MINIO` (source lines 448-464):
`remove_bucket(bucket)` inside a try catching only `S3Error`. -/
def DeleteBucketBlock.deleteBucketMinio {σ : Type} (client : MinioClient σ)
    (st : σ) (bucket endpoint access_key secret_key : String) :
    Except PyExn ((Bool × String) × σ) :=
  match client.remove_bucket st bucket with
  | (MinioOutcome.ok _, st') => Except.ok ((true, ""), st')
  | (MinioOutcome.s3error m, st') => Except.ok ((false, m), st')
  | (MinioOutcome.raised e, _) => Except.error e

/-- The `run` entry point of `DeleteBucketBlock`, as (not) defined by its class
body (source lines 396-465): the class defines only `Input`, `Output`,
`__init__`, `_delete_bucket_AWS` and `_delete_bucket_MINIO`. No `run` method is
defined, so the block exposes no Request → Result-sequence entry point of its
own; this is recorded as `none`. -/
def DeleteBucketBlock.runMethod (σ : Type) :
    Option (MinioClient σ → σ → DeleteBucketInput →
      Except PyExn (List (String × PyVal) × σ)) :=
  none

/-- Invoking the delete-bucket capability through the uniform block interface:
look up the block's `run` method and apply it; `none` when no such method
exists. -/
def DeleteBucketBlock.invoke {σ : Type} (client : MinioClient σ) (st : σ)
    (input_data : DeleteBucketInput) :
    Option (Except PyExn (List (String × PyVal) × σ)) :=
  match DeleteBucketBlock.runMethod σ with
  | some f => some (f client st input_data)
  | none => none

/-- The `run` method of `StoreObjectInS3Block`, present (source lines
109-124). -/
def StoreObjectInS3Block.runMethod (σ : Type) :
    Option (MinioClient σ → Env → σ → StoreInput →
      Except PyExn (List (String × PyVal) × σ)) :=
  some (fun client env st inp => StoreObjectInS3Block.run client env st inp)

/-- The `run` method of `RetrieveObjectFromS3Block`, present (source lines
204-221). -/
def RetrieveObjectFromS3Block.runMethod (σ : Type) :
    Option (MinioClient σ → σ → RetrieveInput →
      Except PyExn (List (String × PyVal) × σ)) :=
  some (fun client st inp => RetrieveObjectFromS3Block.run client st inp)

/-- The `run` method of `DeleteObjectFromS3Block`, present (source lines
299-307). -/
def DeleteObjectFromS3Block.runMethod (σ : Type) :
    Option (MinioClient σ → σ → DeleteObjectInput →
      Except PyExn (List (String × PyVal) × σ)) :=
  some (fun client st inp => DeleteObjectFromS3Block.run client st inp)

/-- The `run` method of `CreateBucketBlock`, present (source lines 380-393). -/
def CreateBucketBlock.runMethod (σ : Type) :
    Option (MinioClient σ → σ → CreateBucketInput →
      Except PyExn (List (String × PyVal) × σ)) :=
  some (fun client st inp => CreateBucketBlock.run client st inp)

/-- Names bound at top level of the module `backend/blocks/data.py`: the
imports (lines 1-12) and the six class statements. The commented-out `AWS`
enum line binds nothing. -/
def moduleGlobalNames : List String :=
  ["os", "Enum", "Any", "Block", "BlockCategory", "BlockInput", "BlockOutput",
   "BlockSchema", "SchemaField", "StorageProvider", "StoreObjectInS3Block",
   "RetrieveObjectFromS3Block", "DeleteObjectFromS3Block", "CreateBucketBlock",
   "DeleteBucketBlock"]

/-- For each block class, the global name its `__init__` body references to
build `input_schema` and `output_schema` (source lines 75-76, 176-177, 272-273,
353-354, 439-440). Each references the class name WITHOUT the `Block`
suffix. -/
def blockInitRef : List (String × String) :=
  [("StoreObjectInS3Block", "StoreObjectInS3"),
   ("RetrieveObjectFromS3Block", "RetrieveObjectFromS3"),
   ("DeleteObjectFromS3Block", "DeleteObjectFromS3"),
   ("CreateBucketBlock", "CreateBucket"),
   ("DeleteBucketBlock", "DeleteBucket")]

/-- Python name resolution for a global reference inside a method body: the
name is looked up in the module globals (none of the five referenced names is a
Python builtin, so the builtins scope is not modelled); an unbound name raises
`NameError`. -/
def resolveGlobal (n : String) : Except PyExn String :=
  if moduleGlobalNames.contains n then Except.ok n
  else Except.error (PyExn.nameError n)

/-- Evaluating a block class's `__init__`: its first executable expression
resolves the referenced schema class name; if resolution fails the constructor
raises `NameError` and no instance is created. (Evaluation past a successful
lookup is not modelled, since for every class in this module the lookup
fails.) -/
def evalInit (cls : String) : Except PyExn Unit :=
  match blockInitRef.lookup cls with
  | some n =>
    match resolveGlobal n with
    | Except.ok _ => Except.ok ()
    | Except.error e => Except.error e
  | none => Except.ok ()

/-- A degenerate backend whose every operation raises `S3Error` with message
`m`, used to observe that an adapter was actually invoked (its message surfaces
in the run output). -/
def s3errClient (m : String) : MinioClient Unit :=
  MinioClient.mk
    (fun st _ _ _ => (MinioOutcome.s3error m, st))
    (fun st _ _ => (MinioOutcome.s3error m, st))
    (fun st _ _ => (MinioOutcome.s3error m, st))
    (fun st _ => (MinioOutcome.s3error m, st))
    (fun st _ => (MinioOutcome.s3error m, st))

/-- A degenerate backend whose every operation raises the non-`S3Error`
exception `e` (for example a network-level fault such as
`urllib3.exceptions.MaxRetryError`, which the minio SDK does not wrap in
`S3Error`). -/
def raisedClient (e : PyExn) : MinioClient Unit :=
  MinioClient.mk
    (fun st _ _ _ => (MinioOutcome.raised e, st))
    (fun st _ _ => (MinioOutcome.raised e, st))
    (fun st _ _ => (MinioOutcome.raised e, st))
    (fun st _ => (MinioOutcome.raised e, st))
    (fun st _ => (MinioOutcome.raised e, st))

/-- An environment with no staged file anywhere. -/
def envEmpty : Env := Env.mk "/workdir" (fun _ => none)

/-- An environment whose working directory is `/workdir` and where the staged
file `/workdir/temp` holds the bytes `staged-bytes`. -/
def envStaged : Env :=
  Env.mk "/workdir" (fun p => if p == "/workdir/temp" then some "staged-bytes" else none)

/-- Initial concrete S3 state: bucket `b1` exists and holds no objects. -/
def st1 : S3State := S3State.mk ["b1"] []

/-- The backend reports its `S3Error`s with non-empty messages: every
`s3error` outcome produced by any operation of `c` carries a message different
from the empty string. (The minio SDK's `str(S3Error)` is non-empty by
construction; this hypothesis makes that explicit for abstract clients.) -/
def MinioClient.nonemptyErrors {σ : Type} (c : MinioClient σ) : Prop :=
  (∀ st b k f st' m, c.fput_object st b k f = (MinioOutcome.s3error m, st') → m ≠ "") ∧
  (∀ st b k st' m, c.get_object st b k = (MinioOutcome.s3error m, st') → m ≠ "") ∧
  (∀ st b k st' m, c.remove_object st b k = (MinioOutcome.s3error m, st') → m ≠ "") ∧
  (∀ st b st' m, c.make_bucket st b = (MinioOutcome.s3error m, st') → m ≠ "") ∧
  (∀ st b st' m, c.remove_bucket st b = (MinioOutcome.s3error m, st') → m ≠ "")

/-- Every `success` value and every `error` value appearing in an emitted
output sequence are a boolean and a string that agree: the boolean is `true`
exactly when the string is empty. -/
def emitsConsistentPair (outs : List (String × PyVal)) : Prop :=
  ∀ s m, ("success", PyVal.vBool s) ∈ outs → ("error", PyVal.vStr m) ∈ outs →
    ((s = true) ↔ m = "")

theorem emitsConsistentPair_pair (s0 : Bool) (m0 : String)
    (h : (s0 = true) ↔ m0 = "") :
    emitsConsistentPair [("success", PyVal.vBool s0), ("error", PyVal.vStr m0)] := by
  intro s m hs hm
  simp only [List.mem_cons, List.mem_singleton, Prod.mk.injEq, PyVal.vBool.injEq,
    PyVal.vStr.injEq, List.not_mem_nil, or_false] at hs hm
  simp only [String.reduceEq, false_and, false_or, true_and, or_false] at hs hm
  rw [hs, hm]
  exact h

theorem emitsConsistentPair_objPair (v : PyVal) (s0 : Bool) (m0 : String)
    (h : (s0 = true) ↔ m0 = "") :
    emitsConsistentPair
      [("obj", v), ("success", PyVal.vBool s0), ("error", PyVal.vStr m0)] := by
  intro s m hs hm
  simp only [List.mem_cons, List.mem_singleton, Prod.mk.injEq, PyVal.vBool.injEq,
    PyVal.vStr.injEq, List.not_mem_nil, or_false] at hs hm
  simp only [String.reduceEq, false_and, false_or, true_and, or_false] at hs hm
  rw [hs, hm]
  exact h

theorem storeMinio_pair_consistent {σ : Type} (client : MinioClient σ)
    (hne : ∀ st b k f st' m,
      client.fput_object st b k f = (MinioOutcome.s3error m, st') → m ≠ "")
    (env : Env) (st : σ) (k : String) (o : PyVal) (b e a s : String)
    (r : Bool × String) (st' : σ)
    (hok : StoreObjectInS3Block.storeInS3Minio client env st k o b e a s =
      Except.ok (r, st')) :
    (r.1 = true) ↔ r.2 = "" := by
  simp only [StoreObjectInS3Block.storeInS3Minio] at hok
  rcases hcall : client.fput_object st b k (env.fs (env.cwd ++ "/temp")) with ⟨res, st2⟩
  rw [hcall] at hok
  cases res with
  | ok val =>
    simp only [Except.ok.injEq, Prod.mk.injEq] at hok
    rw [← hok.1]
    simp
  | s3error m =>
    simp only [Except.ok.injEq, Prod.mk.injEq] at hok
    have hm : m ≠ "" := hne st b k (env.fs (env.cwd ++ "/temp")) st2 m hcall
    rw [← hok.1]
    simp [hm]
  | raised ex => simp at hok

theorem retrieveMinio_pair_consistent {σ : Type} (client : MinioClient σ)
    (hne : ∀ st b k st' m,
      client.get_object st b k = (MinioOutcome.s3error m, st') → m ≠ "")
    (st : σ) (k b e a s : String)
    (r : PyVal × Bool × String) (st' : σ)
    (hok : RetrieveObjectFromS3Block.retrieveFromS3Minio client st k b e a s =
      Except.ok (r, st')) :
    (r.2.1 = true) ↔ r.2.2 = "" := by
  simp only [RetrieveObjectFromS3Block.retrieveFromS3Minio] at hok
  rcases hcall : client.get_object st b k with ⟨res, st2⟩
  rw [hcall] at hok
  cases res with
  | ok val =>
    simp only [Except.ok.injEq, Prod.mk.injEq] at hok
    rw [← hok.1]
    simp
  | s3error m =>
    simp only [Except.ok.injEq, Prod.mk.injEq] at hok
    have hm : m ≠ "" := hne st b k st2 m hcall
    rw [← hok.1]
    simp [hm]
  | raised ex => simp at hok

theorem deleteObjMinio_pair_consistent {σ : Type} (client : MinioClient σ)
    (hne : ∀ st b k st' m,
      client.remove_object st b k = (MinioOutcome.s3error m, st') → m ≠ "")
    (st : σ) (k b e a s : String)
    (r : Bool × String) (st' : σ)
    (hok : DeleteObjectFromS3Block.deleteFromS3Minio client st k b e a s =
      Except.ok (r, st')) :
    (r.1 = true) ↔ r.2 = "" := by
  simp only [DeleteObjectFromS3Block.deleteFromS3Minio] at hok
  rcases hcall : client.remove_object st b k with ⟨res, st2⟩
  rw [hcall] at hok
  cases res with
  | ok val =>
    simp only [Except.ok.injEq, Prod.mk.injEq] at hok
    rw [← hok.1]
    simp
  | s3error m =>
    simp only [Except.ok.injEq, Prod.mk.injEq] at hok
    have hm : m ≠ "" := hne st b k st2 m hcall
    rw [← hok.1]
    simp [hm]
  | raised ex => simp at hok

theorem createBucketMinio_pair_consistent {σ : Type} (client : MinioClient σ)
    (hne : ∀ st b st' m,
      client.make_bucket st b = (MinioOutcome.s3error m, st') → m ≠ "")
    (st : σ) (b e a s : String)
    (r : Bool × String) (st' : σ)
    (hok : CreateBucketBlock.createBucketMinio client st b e a s =
      Except.ok (r, st')) :
    (r.1 = true) ↔ r.2 = "" := by
  simp only [CreateBucketBlock.createBucketMinio] at hok
  rcases hcall : client.make_bucket st b with ⟨res, st2⟩
  rw [hcall] at hok
  cases res with
  | ok val =>
    simp only [Except.ok.injEq, Prod.mk.injEq] at hok
    rw [← hok.1]
    simp
  | s3error m =>
    simp only [Except.ok.injEq, Prod.mk.injEq] at hok
    have hm : m ≠ "" := hne st b st2 m hcall
    rw [← hok.1]
    simp [hm]
  | raised ex => simp at hok

theorem deleteBucketMinio_pair_consistent {σ : Type} (client : MinioClient σ)
    (hne : ∀ st b st' m,
      client.remove_bucket st b = (MinioOutcome.s3error m, st') → m ≠ "")
    (st : σ) (b e a s : String)
    (r : Bool × String) (st' : σ)
    (hok : DeleteBucketBlock.deleteBucketMinio client st b e a s =
      Except.ok (r, st')) :
    (r.1 = true) ↔ r.2 = "" := by
  simp only [DeleteBucketBlock.deleteBucketMinio] at hok
  rcases hcall : client.remove_bucket st b with ⟨res, st2⟩
  rw [hcall] at hok
  cases res with
  | ok val =>
    simp only [Except.ok.injEq, Prod.mk.injEq] at hok
    rw [← hok.1]
    simp
  | s3error m =>
    simp only [Except.ok.injEq, Prod.mk.injEq] at hok
    have hm : m ≠ "" := hne st b st2 m hcall
    rw [← hok.1]
    simp [hm]
  | raised ex => simp at hok

theorem notImplPair_consistent :
    emitsConsistentPair [("success", PyVal.vBool false),
      ("error", PyVal.vStr "Provider not implemented yet.")] := by
  exact emitsConsistentPair_pair false "Provider not implemented yet." (by simp)

theorem storeRun_consistent {σ : Type} (client : MinioClient σ)
    (hne : ∀ st b k f st' m,
      client.fput_object st b k f = (MinioOutcome.s3error m, st') → m ≠ "")
    (env : Env) (st : σ) (inp : StoreInput)
    (outs : List (String × PyVal)) (st' : σ)
    (hrun : StoreObjectInS3Block.run client env st inp = Except.ok (outs, st')) :
    emitsConsistentPair outs := by
  unfold StoreObjectInS3Block.run at hrun
  by_cases hp : (inp.provider == StorageProvider.minio) = true
  · rw [if_pos hp] at hrun
    rcases hcall : StoreObjectInS3Block.storeInS3Minio client env st inp.key
        inp.obj inp.bucket inp.endpoint inp.access_key inp.secret_key with ex | ⟨⟨success, error⟩, st2⟩
    · rw [hcall] at hrun
      simp at hrun
    · rw [hcall] at hrun
      simp only [Except.ok.injEq, Prod.mk.injEq] at hrun
      rw [← hrun.1]
      exact emitsConsistentPair_pair success error
        (storeMinio_pair_consistent client hne env st inp.key inp.obj inp.bucket
          inp.endpoint inp.access_key inp.secret_key (success, error) st2 hcall)
  · rw [if_neg hp] at hrun
    simp only [Except.ok.injEq, Prod.mk.injEq] at hrun
    rw [← hrun.1]
    exact notImplPair_consistent

theorem retrieveRun_consistent {σ : Type} (client : MinioClient σ)
    (hne : ∀ st b k st' m,
      client.get_object st b k = (MinioOutcome.s3error m, st') → m ≠ "")
    (st : σ) (inp : RetrieveInput)
    (outs : List (String × PyVal)) (st' : σ)
    (hrun : RetrieveObjectFromS3Block.run client st inp = Except.ok (outs, st')) :
    emitsConsistentPair outs := by
  unfold RetrieveObjectFromS3Block.run at hrun
  by_cases hp : (inp.provider == StorageProvider.minio) = true
  · rw [if_pos hp] at hrun
    rcases hcall : RetrieveObjectFromS3Block.retrieveFromS3Minio client st inp.key
        inp.bucket inp.endpoint inp.access_key inp.secret_key with ex | ⟨⟨obj, success, error⟩, st2⟩
    · rw [hcall] at hrun
      simp at hrun
    · rw [hcall] at hrun
      simp only [Except.ok.injEq, Prod.mk.injEq] at hrun
      rw [← hrun.1]
      have hiff : (success = true) ↔ error = "" :=
        retrieveMinio_pair_consistent client hne st inp.key inp.bucket
          inp.endpoint inp.access_key inp.secret_key (obj, success, error) st2 hcall
      by_cases ht : truthy obj = true
      · rw [ht]
        simp only [if_true, List.singleton_append]
        exact emitsConsistentPair_objPair obj success error hiff
      · rw [eq_false_of_ne_true ht]
        simp only [Bool.false_eq_true, if_false, List.nil_append]
        exact emitsConsistentPair_pair success error hiff
  · rw [if_neg hp] at hrun
    simp only [Except.ok.injEq, Prod.mk.injEq] at hrun
    rw [← hrun.1]
    exact emitsConsistentPair_objPair PyVal.vNone false "Provider not implemented yet."
      (by simp)

theorem deleteObjRun_consistent {σ : Type} (client : MinioClient σ)
    (st : σ) (inp : DeleteObjectInput)
    (outs : List (String × PyVal)) (st' : σ)
    (hrun : DeleteObjectFromS3Block.run client st inp = Except.ok (outs, st')) :
    emitsConsistentPair outs := by
  unfold DeleteObjectFromS3Block.run at hrun
  by_cases hp : (inp.provider == StorageProvider.minio) = true
  · rw [if_pos hp] at hrun
    simp at hrun
  · rw [if_neg hp] at hrun
    simp only [Except.ok.injEq, Prod.mk.injEq] at hrun
    rw [← hrun.1]
    exact notImplPair_consistent

theorem createRun_consistent {σ : Type} (client : MinioClient σ)
    (hne : ∀ st b st' m,
      client.make_bucket st b = (MinioOutcome.s3error m, st') → m ≠ "")
    (st : σ) (inp : CreateBucketInput)
    (outs : List (String × PyVal)) (st' : σ)
    (hrun : CreateBucketBlock.run client st inp = Except.ok (outs, st')) :
    emitsConsistentPair outs := by
  unfold CreateBucketBlock.run at hrun
  by_cases hp : (inp.provider == StorageProvider.minio) = true
  · rw [if_pos hp] at hrun
    rcases hcall : CreateBucketBlock.createBucketMinio client st inp.bucket
        inp.endpoint inp.access_key inp.secret_key with ex | ⟨⟨success, error⟩, st2⟩
    · rw [hcall] at hrun
      simp at hrun
    · rw [hcall] at hrun
      simp only [Except.ok.injEq, Prod.mk.injEq] at hrun
      rw [← hrun.1]
      exact emitsConsistentPair_pair success error
        (createBucketMinio_pair_consistent client hne st inp.bucket
          inp.endpoint inp.access_key inp.secret_key (success, error) st2 hcall)
  · rw [if_neg hp] at hrun
    simp only [Except.ok.injEq, Prod.mk.injEq] at hrun
    rw [← hrun.1]
    exact notImplPair_consistent

theorem s3errClient_nonemptyErrors (m : String) (hm : m ≠ "") :
    (s3errClient m).nonemptyErrors := by
  refine ⟨?_, ?_, ?_, ?_, ?_⟩
  · intro st b k f st' m' heq
    simp only [s3errClient, Prod.mk.injEq, MinioOutcome.s3error.injEq] at heq
    rw [← heq.1]; exact hm
  · intro st b k st' m' heq
    simp only [s3errClient, Prod.mk.injEq, MinioOutcome.s3error.injEq] at heq
    rw [← heq.1]; exact hm
  · intro st b k st' m' heq
    simp only [s3errClient, Prod.mk.injEq, MinioOutcome.s3error.injEq] at heq
    rw [← heq.1]; exact hm
  · intro st b st' m' heq
    simp only [s3errClient, Prod.mk.injEq, MinioOutcome.s3error.injEq] at heq
    rw [← heq.1]; exact hm
  · intro st b st' m' heq
    simp only [s3errClient, Prod.mk.injEq, MinioOutcome.s3error.injEq] at heq
    rw [← heq.1]; exact hm

/-- C1: for every operation and every request, whenever a result sequence is
emitted its `success` value is `true` exactly when its `error` value is the
empty string: on a successful backend call the adapter returns `(true, "")`,
on an `S3Error` it returns `(false, str(e))`, and on the not-implemented path
the runs emit `(false, "Provider not implemented yet.")` — under the
hypothesis that the backend's `S3Error` messages are non-empty. Covers the
four `run` methods and all five MINIO adapters. -/
theorem c1_success_iff_error_empty {σ : Type} (client : MinioClient σ)
    (h : client.nonemptyErrors) (env : Env) (st : σ) :
    (∀ inp outs st', StoreObjectInS3Block.run client env st inp = Except.ok (outs, st') →
      emitsConsistentPair outs) ∧
    (∀ inp outs st', RetrieveObjectFromS3Block.run client st inp = Except.ok (outs, st') →
      emitsConsistentPair outs) ∧
    (∀ inp outs st', DeleteObjectFromS3Block.run client st inp = Except.ok (outs, st') →
      emitsConsistentPair outs) ∧
    (∀ inp outs st', CreateBucketBlock.run client st inp = Except.ok (outs, st') →
      emitsConsistentPair outs) ∧
    (∀ k o b e a s r st',
      StoreObjectInS3Block.storeInS3Minio client env st k o b e a s = Except.ok (r, st') →
      ((r.1 = true) ↔ r.2 = "")) ∧
    (∀ k b e a s r st',
      RetrieveObjectFromS3Block.retrieveFromS3Minio client st k b e a s = Except.ok (r, st') →
      ((r.2.1 = true) ↔ r.2.2 = "")) ∧
    (∀ k b e a s r st',
      DeleteObjectFromS3Block.deleteFromS3Minio client st k b e a s = Except.ok (r, st') →
      ((r.1 = true) ↔ r.2 = "")) ∧
    (∀ b e a s r st',
      CreateBucketBlock.createBucketMinio client st b e a s = Except.ok (r, st') →
      ((r.1 = true) ↔ r.2 = "")) ∧
    (∀ b e a s r st',
      DeleteBucketBlock.deleteBucketMinio client st b e a s = Except.ok (r, st') →
      ((r.1 = true) ↔ r.2 = "")) := by
  obtain ⟨h1, h2, h3, h4, h5⟩ := h
  exact ⟨fun inp outs st' => storeRun_consistent client h1 env st inp outs st',
    fun inp outs st' => retrieveRun_consistent client h2 st inp outs st',
    fun inp outs st' => deleteObjRun_consistent client st inp outs st',
    fun inp outs st' => createRun_consistent client h4 st inp outs st',
    fun k o b e a s r st' => storeMinio_pair_consistent client h1 env st k o b e a s r st',
    fun k b e a s r st' => retrieveMinio_pair_consistent client h2 st k b e a s r st',
    fun k b e a s r st' => deleteObjMinio_pair_consistent client h3 st k b e a s r st',
    fun b e a s r st' => createBucketMinio_pair_consistent client h4 st b e a s r st',
    fun b e a s r st' => deleteBucketMinio_pair_consistent client h5 st b e a s r st'⟩

/-- Witness for C1: a concrete failing store run against a backend whose
`S3Error` message is `"mock failure"` emits a consistent pair. -/
theorem c1_success_iff_error_empty_witness :
    emitsConsistentPair
      [("success", PyVal.vBool false), ("error", PyVal.vStr "mock failure")] :=
  (c1_success_iff_error_empty (s3errClient "mock failure")
      (s3errClient_nonemptyErrors "mock failure" (by decide)) envEmpty ()).1
    (StoreInput.mk "k1" (PyVal.vStr "p") "minio" "b1" "https://localhost:9000" "" "")
    [("success", PyVal.vBool false), ("error", PyVal.vStr "mock failure")] () rfl

/-- A concrete store request with the reserved (non-MINIO) provider value. -/
def awsStoreInput : StoreInput :=
  StoreInput.mk "k1" (PyVal.vStr "p") "aws" "b1" "https://localhost:9000" "" ""

/-- A concrete retrieve request with the reserved (non-MINIO) provider value. -/
def awsRetrieveInput : RetrieveInput :=
  RetrieveInput.mk "k1" "aws" "b1" "https://localhost:9000" "" ""

/-- A concrete delete-object request with the reserved provider value. -/
def awsDeleteObjectInput : DeleteObjectInput :=
  DeleteObjectInput.mk "k1" "aws" "b1" "https://localhost:9000" "" ""

/-- A concrete create-bucket request with the reserved provider value. -/
def awsCreateBucketInput : CreateBucketInput :=
  CreateBucketInput.mk "b1" "aws" "https://localhost:9000" "" ""

/-- A concrete delete-bucket request with the reserved provider value. -/
def awsDeleteBucketInput : DeleteBucketInput :=
  DeleteBucketInput.mk "b1" "aws" "https://localhost:9000" "" ""

/-- C2 counterexample: the claim quantifies over all five operations, but the
delete-bucket block defines no `run` method, so the concrete delete-bucket
request with the reserved provider yields no result sequence at all — in
particular it does not yield `success == false` with the fixed message. -/
theorem c2_not_implemented_counterexample :
    DeleteBucketBlock.invoke (s3errClient "x") () awsDeleteBucketInput = none := rfl

/-- C2 (amended): for each of the FOUR operations that define a `run` method
(store, retrieve, delete-object, create-bucket), a request whose provider is
any value other than MINIO yields `success == false` and
`error == "Provider not implemented yet."`, with the backend state unchanged
and the output independent of the client — so no adapter is invoked; the
delete-bucket block defines no `run` method and such a request yields nothing
through the block interface. -/
theorem c2_not_implemented_amended {σ : Type} (client : MinioClient σ)
    (env : Env) (st : σ) (sInp : StoreInput) (rInp : RetrieveInput)
    (dInp : DeleteObjectInput) (cInp : CreateBucketInput)
    (hs : (sInp.provider == StorageProvider.minio) = false)
    (hr : (rInp.provider == StorageProvider.minio) = false)
    (hd : (dInp.provider == StorageProvider.minio) = false)
    (hc : (cInp.provider == StorageProvider.minio) = false) :
    StoreObjectInS3Block.run client env st sInp =
      Except.ok ([("success", PyVal.vBool false),
        ("error", PyVal.vStr "Provider not implemented yet.")], st) ∧
    RetrieveObjectFromS3Block.run client st rInp =
      Except.ok ([("obj", PyVal.vNone), ("success", PyVal.vBool false),
        ("error", PyVal.vStr "Provider not implemented yet.")], st) ∧
    DeleteObjectFromS3Block.run client st dInp =
      Except.ok ([("success", PyVal.vBool false),
        ("error", PyVal.vStr "Provider not implemented yet.")], st) ∧
    CreateBucketBlock.run client st cInp =
      Except.ok ([("success", PyVal.vBool false),
        ("error", PyVal.vStr "Provider not implemented yet.")], st) ∧
    (∀ dbInp : DeleteBucketInput, DeleteBucketBlock.invoke client st dbInp = none) := by
  refine ⟨?_, ?_, ?_, ?_, fun _ => rfl⟩
  · simp [StoreObjectInS3Block.run, hs]
  · simp [RetrieveObjectFromS3Block.run, hr]
  · simp [DeleteObjectFromS3Block.run, hd]
  · simp [CreateBucketBlock.run, hc]

/-- Witness for C2 (amended): the four runs with `provider = "aws"` each emit
the fixed not-implemented outcome, for a concrete client and state. -/
theorem c2_not_implemented_witness :
    StoreObjectInS3Block.run (s3errClient "x") envEmpty () awsStoreInput =
      Except.ok ([("success", PyVal.vBool false),
        ("error", PyVal.vStr "Provider not implemented yet.")], ()) ∧
    RetrieveObjectFromS3Block.run (s3errClient "x") () awsRetrieveInput =
      Except.ok ([("obj", PyVal.vNone), ("success", PyVal.vBool false),
        ("error", PyVal.vStr "Provider not implemented yet.")], ()) ∧
    DeleteObjectFromS3Block.run (s3errClient "x") () awsDeleteObjectInput =
      Except.ok ([("success", PyVal.vBool false),
        ("error", PyVal.vStr "Provider not implemented yet.")], ()) ∧
    CreateBucketBlock.run (s3errClient "x") () awsCreateBucketInput =
      Except.ok ([("success", PyVal.vBool false),
        ("error", PyVal.vStr "Provider not implemented yet.")], ()) := by
  have h := c2_not_implemented_amended (s3errClient "x") envEmpty () awsStoreInput
    awsRetrieveInput awsDeleteObjectInput awsCreateBucketInput rfl rfl rfl rfl
  exact ⟨h.1, h.2.1, h.2.2.1, h.2.2.2.1⟩

/-- C3 counterexample: exceptions that are not `S3Error` DO propagate out of
the adapters. First conjunct: a network-level fault
(`urllib3.exceptions.MaxRetryError`, which the minio SDK does not wrap in
`S3Error`) escapes the retrieve adapter. Second conjunct: a missing staged
upload file makes the store adapter raise `FileNotFoundError` from
`fput_object`, also uncaught. -/
theorem c3_adapter_exception_counterexample :
    RetrieveObjectFromS3Block.retrieveFromS3Minio
      (raisedClient (PyExn.backendExn "urllib3.exceptions.MaxRetryError")) ()
      "k1" "b1" "https://localhost:9000" "" "" =
      Except.error (PyExn.backendExn "urllib3.exceptions.MaxRetryError") ∧
    StoreObjectInS3Block.storeInS3Minio s3Client envEmpty st1 "k1" (PyVal.vStr "P")
      "b1" "https://localhost:9000" "" "" =
      Except.error (PyExn.backendExn "FileNotFoundError") := ⟨rfl, rfl⟩

/-- C3 (amended): each of the five adapters converts a backend-reported
`S3Error` into `(success=false, error=str(e))` and a successful call into
`(true, "")`; but an exception of any other type raised by the backend call
propagates out of the adapter uncaught. -/
theorem c3_adapter_exception_amended {σ : Type} (client : MinioClient σ)
    (env : Env) (st : σ) (k : String) (o : PyVal) (b e a s : String) :
    (∀ u st', client.fput_object st b k (env.fs (env.cwd ++ "/temp")) = (MinioOutcome.ok u, st') →
      StoreObjectInS3Block.storeInS3Minio client env st k o b e a s = Except.ok ((true, ""), st')) ∧
    (∀ m st', client.fput_object st b k (env.fs (env.cwd ++ "/temp")) = (MinioOutcome.s3error m, st') →
      StoreObjectInS3Block.storeInS3Minio client env st k o b e a s = Except.ok ((false, m), st')) ∧
    (∀ ex st', client.fput_object st b k (env.fs (env.cwd ++ "/temp")) = (MinioOutcome.raised ex, st') →
      StoreObjectInS3Block.storeInS3Minio client env st k o b e a s = Except.error ex) ∧
    (∀ d st', client.get_object st b k = (MinioOutcome.ok d, st') →
      RetrieveObjectFromS3Block.retrieveFromS3Minio client st k b e a s =
        Except.ok ((PyVal.vStr d, true, ""), st')) ∧
    (∀ m st', client.get_object st b k = (MinioOutcome.s3error m, st') →
      RetrieveObjectFromS3Block.retrieveFromS3Minio client st k b e a s =
        Except.ok ((PyVal.vNone, false, m), st')) ∧
    (∀ ex st', client.get_object st b k = (MinioOutcome.raised ex, st') →
      RetrieveObjectFromS3Block.retrieveFromS3Minio client st k b e a s = Except.error ex) ∧
    (∀ u st', client.remove_object st b k = (MinioOutcome.ok u, st') →
      DeleteObjectFromS3Block.deleteFromS3Minio client st k b e a s = Except.ok ((true, ""), st')) ∧
    (∀ m st', client.remove_object st b k = (MinioOutcome.s3error m, st') →
      DeleteObjectFromS3Block.deleteFromS3Minio client st k b e a s = Except.ok ((false, m), st')) ∧
    (∀ ex st', client.remove_object st b k = (MinioOutcome.raised ex, st') →
      DeleteObjectFromS3Block.deleteFromS3Minio client st k b e a s = Except.error ex) ∧
    (∀ u st', client.make_bucket st b = (MinioOutcome.ok u, st') →
      CreateBucketBlock.createBucketMinio client st b e a s = Except.ok ((true, ""), st')) ∧
    (∀ m st', client.make_bucket st b = (MinioOutcome.s3error m, st') →
      CreateBucketBlock.createBucketMinio client st b e a s = Except.ok ((false, m), st')) ∧
    (∀ ex st', client.make_bucket st b = (MinioOutcome.raised ex, st') →
      CreateBucketBlock.createBucketMinio client st b e a s = Except.error ex) ∧
    (∀ u st', client.remove_bucket st b = (MinioOutcome.ok u, st') →
      DeleteBucketBlock.deleteBucketMinio client st b e a s = Except.ok ((true, ""), st')) ∧
    (∀ m st', client.remove_bucket st b = (MinioOutcome.s3error m, st') →
      DeleteBucketBlock.deleteBucketMinio client st b e a s = Except.ok ((false, m), st')) ∧
    (∀ ex st', client.remove_bucket st b = (MinioOutcome.raised ex, st') →
      DeleteBucketBlock.deleteBucketMinio client st b e a s = Except.error ex) := by
  refine ⟨?_, ?_, ?_, ?_, ?_, ?_, ?_, ?_, ?_, ?_, ?_, ?_, ?_, ?_, ?_⟩ <;>
    intro x st' heq <;>
    simp [StoreObjectInS3Block.storeInS3Minio,
      RetrieveObjectFromS3Block.retrieveFromS3Minio,
      DeleteObjectFromS3Block.deleteFromS3Minio,
      CreateBucketBlock.createBucketMinio,
      DeleteBucketBlock.deleteBucketMinio, heq]

/-- Witness for C3 (amended): an `S3Error` with message `"mock s3 failure"`
is converted by the store adapter into `(false, "mock s3 failure")`. -/
theorem c3_adapter_exception_witness :
    StoreObjectInS3Block.storeInS3Minio (s3errClient "mock s3 failure") envEmpty ()
      "k" (PyVal.vStr "p") "b" "ep" "" "" =
      Except.ok ((false, "mock s3 failure"), ()) :=
  (c3_adapter_exception_amended (s3errClient "mock s3 failure") envEmpty ()
      "k" (PyVal.vStr "p") "b" "ep" "" "").2.1 "mock s3 failure" () rfl

/-- C4 counterexample: a store request with an EMPTY `key` is not rejected:
the run invokes the adapter (the backend's error message surfaces in the
output) and produces a normal `success == false` result instead of aborting
the call. -/
theorem c4_validation_counterexample :
    StoreObjectInS3Block.run (s3errClient "S3 operation failed; code: NoSuchBucket")
      envEmpty ()
      (StoreInput.mk "" (PyVal.vStr "payload") "minio" "b1" "https://localhost:9000" "" "") =
    Except.ok ([("success", PyVal.vBool false),
      ("error", PyVal.vStr "S3 operation failed; code: NoSuchBucket")], ()) := rfl

/-- C4 (amended): no operation validates that required string fields are
non-empty. A request with empty `key` (and even empty `bucket`) is passed to
the adapter unchanged: the arbitrary backend message `m` surfaces in the run
output, so the adapter was invoked, and the call yields an ordinary
`success == false` result (for delete-object it reaches the buggy adapter call
and raises `TypeError`); the delete-bucket block has no `run` entry point.
Missing-field presence checks live in the host's schema layer outside this
module. -/
theorem c4_validation_amended :
    (∀ m bucket, StoreObjectInS3Block.run (s3errClient m) envEmpty ()
        (StoreInput.mk "" (PyVal.vStr "p") "minio" bucket "https://localhost:9000" "" "") =
      Except.ok ([("success", PyVal.vBool false), ("error", PyVal.vStr m)], ())) ∧
    (∀ m, RetrieveObjectFromS3Block.run (s3errClient m) ()
        (RetrieveInput.mk "" "minio" "" "https://localhost:9000" "" "") =
      Except.ok ([("success", PyVal.vBool false), ("error", PyVal.vStr m)], ())) ∧
    (∀ m, DeleteObjectFromS3Block.run (s3errClient m) ()
        (DeleteObjectInput.mk "" "minio" "" "https://localhost:9000" "" "") =
      Except.error (PyExn.typeError deleteCallTypeErrorMsg)) ∧
    (∀ m, CreateBucketBlock.run (s3errClient m) ()
        (CreateBucketInput.mk "" "minio" "https://localhost:9000" "" "") =
      Except.ok ([("success", PyVal.vBool false), ("error", PyVal.vStr m)], ())) ∧
    (∀ (client : MinioClient Unit) (inp : DeleteBucketInput),
      DeleteBucketBlock.invoke client () inp = none) :=
  ⟨fun _ _ => rfl, fun _ => rfl, fun _ => rfl, fun _ => rfl, fun _ _ => rfl⟩

/-- C5: a delete-object request with provider MINIO never reaches
`remove_object`. The source (line 302) calls the five-parameter static method
`_delete_from_s3_MINIO` with only two arguments (`input_data.key` and the
whole `input_data` record), so Python raises `TypeError` at the call site and
the run emits nothing. Second conjunct: the adapter itself, applied to its
declared five arguments, does remove exactly (bucket, key) — evidence that the
claim describes the intended contract the run fails to invoke. -/
theorem c5_delete_object_type_error :
    DeleteObjectFromS3Block.run s3Client st1
      (DeleteObjectInput.mk "k1" "minio" "b1" "https://localhost:9000" "" "") =
      Except.error (PyExn.typeError deleteCallTypeErrorMsg) ∧
    DeleteObjectFromS3Block.deleteFromS3Minio s3Client st1 "k1" "b1"
      "https://localhost:9000" "" "" = Except.ok ((true, ""), st1) := ⟨rfl, rfl⟩

/-- The S3 state after a store of key `k1` into bucket `b1` under `envStaged`:
the STAGED FILE's bytes were uploaded, not the request's payload. -/
def stStored : S3State := S3State.mk ["b1"] [(("b1", "k1"), "staged-bytes")]

/-- C6: the store adapter ignores the request's `obj` payload. Storing the
payload `"payload-P"` under `k1` in `b1` succeeds, but the bytes now stored
under `(b1, k1)` are `"staged-bytes"` — the content of the staging file
`<cwd>/temp` — and not the payload. -/
theorem c6_store_ignores_payload :
    StoreObjectInS3Block.storeInS3Minio s3Client envStaged st1 "k1"
      (PyVal.vStr "payload-P") "b1" "https://localhost:9000" "" "" =
      Except.ok ((true, ""), stStored) ∧
    stStored.objects.lookup ("b1", "k1") = some "staged-bytes" ∧
    ("staged-bytes" : String) ≠ "payload-P" := ⟨rfl, rfl, by decide⟩

/-- C7: the store → retrieve round trip does NOT return the stored payload.
Storing `P = "payload-P"` under `k1` in `b1` and then retrieving `k1` from
`b1` against the same backend succeeds, but the retrieved `obj` value is the
staging file's content `"staged-bytes"`, not `P`. -/
theorem c7_round_trip_not_payload :
    StoreObjectInS3Block.run s3Client envStaged st1
      (StoreInput.mk "k1" (PyVal.vStr "payload-P") "minio" "b1"
        "https://localhost:9000" "" "") =
      Except.ok ([("success", PyVal.vBool true), ("error", PyVal.vStr "")], stStored) ∧
    RetrieveObjectFromS3Block.run s3Client stStored
      (RetrieveInput.mk "k1" "minio" "b1" "https://localhost:9000" "" "") =
      Except.ok ([("obj", PyVal.vStr "staged-bytes"), ("success", PyVal.vBool true),
        ("error", PyVal.vStr "")], stStored) ∧
    PyVal.vStr "staged-bytes" ≠ PyVal.vStr "payload-P" := ⟨rfl, rfl, by decide⟩

/-- C8 counterexample: on the unimplemented-provider path the retrieve run DOES
emit an `obj` value carrying the `None` placeholder (source line 219), so the
claim that no `obj` value is ever emitted in a failing case is false at this
concrete request. -/
theorem c8_obj_emission_counterexample :
    RetrieveObjectFromS3Block.run (s3errClient "x") () awsRetrieveInput =
      Except.ok ([("obj", PyVal.vNone), ("success", PyVal.vBool false),
        ("error", PyVal.vStr "Provider not implemented yet.")], ()) ∧
    ("obj", PyVal.vNone) ∈ [("obj", PyVal.vNone), ("success", PyVal.vBool false),
      ("error", PyVal.vStr "Provider not implemented yet.")] := ⟨rfl, by simp⟩

/-- C8 (amended): on the MINIO path the retrieve run emits `obj` only when
retrieval succeeded with a truthy (non-`None`, non-empty) value — and then
`success == true` is also emitted — so no failing MINIO retrieval ever emits
`obj`; on the unimplemented-provider path, however, the run always emits
`("obj", None)` alongside the failed result. -/
theorem c8_obj_emission_amended {σ : Type} (client : MinioClient σ) (st : σ)
    (inp : RetrieveInput) :
    ((inp.provider == StorageProvider.minio) = true →
      ∀ outs st', RetrieveObjectFromS3Block.run client st inp = Except.ok (outs, st') →
        ∀ v, ("obj", v) ∈ outs →
          truthy v = true ∧ ("success", PyVal.vBool true) ∈ outs) ∧
    ((inp.provider == StorageProvider.minio) = false →
      ∀ outs st', RetrieveObjectFromS3Block.run client st inp = Except.ok (outs, st') →
        ("obj", PyVal.vNone) ∈ outs) := by
  constructor
  · intro hp outs st' hrun v hv
    unfold RetrieveObjectFromS3Block.run at hrun
    rw [if_pos hp] at hrun
    rcases hcall : RetrieveObjectFromS3Block.retrieveFromS3Minio client st inp.key
        inp.bucket inp.endpoint inp.access_key inp.secret_key with ex | ⟨⟨obj, success, error⟩, st2⟩
    · rw [hcall] at hrun
      simp at hrun
    · rw [hcall] at hrun
      simp only [Except.ok.injEq, Prod.mk.injEq] at hrun
      obtain ⟨houts, hst'⟩ := hrun
      subst houts
      unfold RetrieveObjectFromS3Block.retrieveFromS3Minio at hcall
      rcases hget : client.get_object st inp.bucket inp.key with ⟨res, st3⟩
      rw [hget] at hcall
      cases res with
      | ok d =>
        simp only [Except.ok.injEq, Prod.mk.injEq] at hcall
        obtain ⟨⟨hobj, hsucc, herr⟩, hst⟩ := hcall
        rw [← hobj] at hv ⊢
        rw [← hsucc]
        cases htv : truthy (PyVal.vStr d) with
        | true =>
          simp at hv
          rw [hv.2]
          exact ⟨htv, by simp⟩
        | false =>
          simp [htv] at hv
      | s3error m =>
        simp only [Except.ok.injEq, Prod.mk.injEq] at hcall
        obtain ⟨⟨hobj, hsucc, herr⟩, hst⟩ := hcall
        rw [← hobj] at hv
        simp [truthy] at hv
      | raised ex2 =>
        simp at hcall
  · intro hp outs st' hrun
    unfold RetrieveObjectFromS3Block.run at hrun
    rw [hp] at hrun
    simp only [Bool.false_eq_true, if_false, Except.ok.injEq, Prod.mk.injEq] at hrun
    rw [← hrun.1]
    simp

/-- Witness for C8 (amended): a successful concrete MINIO retrieval emits a
truthy `obj` value together with `success == true`. -/
theorem c8_obj_emission_witness :
    truthy (PyVal.vStr "staged-bytes") = true ∧
    ("success", PyVal.vBool true) ∈ [("obj", PyVal.vStr "staged-bytes"),
      ("success", PyVal.vBool true), ("error", PyVal.vStr "")] :=
  (c8_obj_emission_amended s3Client stStored
      (RetrieveInput.mk "k1" "minio" "b1" "https://localhost:9000" "" "")).1 rfl
    [("obj", PyVal.vStr "staged-bytes"), ("success", PyVal.vBool true),
      ("error", PyVal.vStr "")] stStored rfl (PyVal.vStr "staged-bytes") (by simp)

/-- C9: each of the five block constructors references a schema-holder class
name that is not bound anywhere in the module (the class names without the
`Block` suffix), so evaluating any block's constructor raises `NameError` and
no block instance can be created through the public interface. The last five
conjuncts exhibit the missing bindings directly. -/
theorem c9_init_name_errors :
    evalInit "StoreObjectInS3Block" = Except.error (PyExn.nameError "StoreObjectInS3") ∧
    evalInit "RetrieveObjectFromS3Block" = Except.error (PyExn.nameError "RetrieveObjectFromS3") ∧
    evalInit "DeleteObjectFromS3Block" = Except.error (PyExn.nameError "DeleteObjectFromS3") ∧
    evalInit "CreateBucketBlock" = Except.error (PyExn.nameError "CreateBucket") ∧
    evalInit "DeleteBucketBlock" = Except.error (PyExn.nameError "DeleteBucket") ∧
    moduleGlobalNames.contains "StoreObjectInS3" = false ∧
    moduleGlobalNames.contains "RetrieveObjectFromS3" = false ∧
    moduleGlobalNames.contains "DeleteObjectFromS3" = false ∧
    moduleGlobalNames.contains "CreateBucket" = false ∧
    moduleGlobalNames.contains "DeleteBucket" = false :=
  ⟨rfl, rfl, rfl, rfl, rfl, rfl, rfl, rfl, rfl, rfl⟩

/-- C10: the delete-bucket block defines its two backend adapter methods but
no `run` method, unlike the other four blocks, whose `run` methods are all
present; consequently invoking the delete-bucket capability through the
uniform block interface yields no output at all — no `success` or `error`
value can ever be emitted for it. -/
theorem c10_delete_bucket_no_run :
    (∀ σ : Type, DeleteBucketBlock.runMethod σ = none) ∧
    (∀ σ : Type, (StoreObjectInS3Block.runMethod σ).isSome = true) ∧
    (∀ σ : Type, (RetrieveObjectFromS3Block.runMethod σ).isSome = true) ∧
    (∀ σ : Type, (DeleteObjectFromS3Block.runMethod σ).isSome = true) ∧
    (∀ σ : Type, (CreateBucketBlock.runMethod σ).isSome = true) ∧
    (∀ (σ : Type) (client : MinioClient σ) (st : σ) (inp : DeleteBucketInput),
      DeleteBucketBlock.invoke client st inp = none) :=
  ⟨fun _ => rfl, fun _ => rfl, fun _ => rfl, fun _ => rfl, fun _ => rfl,
    fun _ _ _ _ => rfl⟩
